import Mathlib

/-!
Shallow embedding of the air-hockey repository: a server-authoritative
variant (960 by 540 table, namespace Server), a peer-authoritative variant
whose server only relays and scores (800 by 400 table, namespace ServerB),
and the browser client that runs the puck physics in the peer-authoritative
variant (namespace Client).

Modelling conventions, used throughout:
- JavaScript numbers are modelled as exact rationals.
- Where the code calls Math.sqrt, the (generally irrational) root is
  passed as an explicit argument, constrained in theorems by the
  hypotheses that it is nonnegative and squares to the squared quantity.
  Branch tests that the source writes on the root (distance less than the
  radius sum, speed greater than the cap) are expressed on the squared
  quantity; for a nonnegative root and a positive bound the two tests
  agree, so the definitions agree with the source on every real execution.
- Math.random() outputs are passed as explicit rational arguments, with
  membership in the interval from zero to one as a hypothesis where it
  matters; the random angle is passed as its cosine and sine, a pair
  constrained by the Pythagorean identity.
- NaN and the undefined value are modelled explicitly by the type JVal in
  the message-handler layer, where claims depend on them.  Inside the
  rational physics layer, division by zero at coincident centers produces
  NaN in JavaScript; every use of such a NaN in the source flows into a
  comparison that is false for NaN, and the Lean convention that division
  by zero is zero takes the same branch, which is noted at each use site.
- Timestamps (Date.now, lastUpdate, the goal-flash expiry) and socket ids
  are irrelevant to every claim and are dropped from the state; the
  goal-flash side is kept.
-/

namespace AirHockey

/-- JavaScript value as seen by an input-message handler: undefined (or any
value whose typeof is not number, which the handlers treat identically),
NaN (whose typeof IS number), or a finite number modelled as a rational. -/
inductive JVal where
  | undef : JVal
  | nan : JVal
  | num : ℚ → JVal
deriving DecidableEq

/-- Test written typeof x === number in the source; true for NaN. -/
def typeofNumber : JVal → Bool
  | .undef => false
  | .nan => true
  | .num _ => true

/-- Math.min on handler-layer values: NaN (or a non-number coerced to NaN)
propagates. -/
def jmin : JVal → JVal → JVal
  | .num a, .num b => .num (min a b)
  | _, _ => .nan

/-- Math.max on handler-layer values: NaN propagates. -/
def jmax : JVal → JVal → JVal
  | .num a, .num b => .num (max a b)
  | _, _ => .nan

/-- Source function clamp of part_001 lines 58-60, lifted to handler-layer
values: Math.max(min, Math.min(max, value)). -/
def clampJ (v : JVal) (lo hi : ℚ) : JVal :=
  jmax (.num lo) (jmin (.num hi) v)

/-- Boolean test that a handler-layer value is a finite number lying in the
closed interval from lo to hi; false for NaN and undefined. -/
def jvalInBounds (v : JVal) (lo hi : ℚ) : Bool :=
  match v with
  | .num q => if lo ≤ q ∧ q ≤ hi then true else false
  | _ => false

namespace Server

/-- Table width of part_001 line 9. -/
def TABLE_WIDTH : ℚ := 960

/-- Table height of part_001 line 10. -/
def TABLE_HEIGHT : ℚ := 540

/-- Horizontal center of part_001 line 11. -/
def CENTER_X : ℚ := TABLE_WIDTH / 2

/-- Vertical center of part_001 line 12. -/
def CENTER_Y : ℚ := TABLE_HEIGHT / 2

/-- Paddle radius of part_001 line 13. -/
def PADDLE_RADIUS : ℚ := 40

/-- Puck radius of part_001 line 14. -/
def PUCK_RADIUS : ℚ := 18

/-- Initial puck speed of part_001 line 15. -/
def PUCK_START_SPEED : ℚ := 13 / 2

/-- Friction factor of part_001 line 16 (0.993 as an exact rational). -/
def PUCK_FRICTION : ℚ := 993 / 1000

/-- A side of the table, the string left or right in the source. -/
inductive Side where
  | left : Side
  | right : Side
deriving DecidableEq

/-- The opposite side. -/
def Side.other : Side → Side
  | .left => .right
  | .right => .left

/-- Puck state of part_001: position and velocity. -/
structure Puck where
  x : ℚ
  y : ℚ
  vx : ℚ
  vy : ℚ
deriving DecidableEq

/-- Paddle state of part_001 (the socket id and lastUpdate timestamp carry
no claim-relevant information and are dropped). -/
structure Paddle where
  x : ℚ
  y : ℚ
  vx : ℚ
  vy : ℚ
deriving DecidableEq

/-- Room state of part_001 lines 34-44: two optional paddle slots, a puck,
two scores and the goal-flash side (its expiry timestamp dropped). -/
structure Room where
  left : Option Paddle
  right : Option Paddle
  puck : Puck
  scoreL : ℕ
  scoreR : ℕ
  goalFlash : Option Side
deriving DecidableEq

/-- Source function clamp of part_001 lines 58-60 on rationals:
Math.max(min, Math.min(max, value)). -/
def clamp (value lo hi : ℚ) : ℚ := max lo (min hi value)

/-- Math.sign on rationals. -/
def jsign (q : ℚ) : ℚ := if 0 < q then 1 else if q < 0 then -1 else 0

/-- Source function spawnPuck of part_001 lines 46-56.  The random angle
enters only through its cosine c and sine s, passed explicitly; the
expression Math.sign(Math.cos(angle)) || 1 replaces a zero sign by one. -/
def spawnPuck (c s : ℚ) (lastScorer : Option Side) : Puck :=
  let direction : ℚ :=
    match lastScorer with
    | some .left => 1
    | some .right => -1
    | none => if jsign c = 0 then 1 else jsign c
  { x := CENTER_X
    y := CENTER_Y
    vx := |c| * PUCK_START_SPEED * direction
    vy := s * PUCK_START_SPEED }

/-- Lower legal x for a paddle of the given side, the min argument of the
clamp calls at part_001 lines 136 and 208-212. -/
def paddleMinX : Side → ℚ
  | .left => PADDLE_RADIUS
  | .right => CENTER_X + PADDLE_RADIUS

/-- Upper legal x for a paddle of the given side, the max argument of the
clamp calls at part_001 lines 136 and 208-212. -/
def paddleMaxX : Side → ℚ
  | .left => CENTER_X - PADDLE_RADIUS
  | .right => TABLE_WIDTH - PADDLE_RADIUS

/-- Source function handlePaddle of part_001 lines 206-217, on an occupied
slot: clamp the position to the half-plane of the side and the vertical
bounds, then damp the velocity by 0.9. -/
def handlePaddle (p : Paddle) (side : Side) : Paddle :=
  { x := clamp p.x (paddleMinX side) (paddleMaxX side)
    y := clamp p.y PADDLE_RADIUS (TABLE_HEIGHT - PADDLE_RADIUS)
    vx := p.vx * (9 / 10)
    vy := p.vy * (9 / 10) }

/-- Source function collideWithPaddle of part_001 lines 219-243.  The
argument dist stands for Math.sqrt of the squared center distance; the
source itself branches on the squared distance, so the guard is verbatim.
Inside the branch the source divides by dist. -/
def collideWithPaddle (pk : Puck) (pd : Paddle) (dist : ℚ) : Puck :=
  let dx := pk.x - pd.x
  let dy := pk.y - pd.y
  let distSq := dx * dx + dy * dy
  let combined := PUCK_RADIUS + PADDLE_RADIUS
  if combined * combined ≤ distSq ∨ distSq = 0 then pk
  else
    let nx := dx / dist
    let ny := dy / dist
    let rel := pk.vx * nx + pk.vy * ny
    let vx1 := if rel < 0 then pk.vx - 2 * rel * nx else pk.vx
    let vy1 := if rel < 0 then pk.vy - 2 * rel * ny else pk.vy
    let overlap := combined - dist
    { x := pk.x + nx * overlap
      y := pk.y + ny * overlap
      vx := vx1 + pd.vx * (11 / 20)
      vy := vy1 + pd.vy * (11 / 20) }

/-- Source function scoreGoal of part_001 lines 245-250: increment the
counter of the scorer, set the goal flash, respawn the puck biased away
from the conceding side. -/
def scoreGoal (r : Room) (scorer : Side) (c s : ℚ) : Room :=
  { r with
    scoreL := if scorer = .left then r.scoreL + 1 else r.scoreL
    scoreR := if scorer = .right then r.scoreR + 1 else r.scoreR
    goalFlash := some scorer
    puck := spawnPuck c s (some scorer) }

/-- Source function updateRoom of part_001 lines 174-204, one simulation
tick: integrate the puck, apply friction, reflect off the horizontal
walls, clamp and damp each occupied paddle, resolve both collisions, then
detect a goal.  The arguments dl and dr stand for the Math.sqrt values of
the two collision calls, c and s for the cosine and sine of the respawn
angle should a goal occur. -/
def updateRoom (r : Room) (dl dr c s : ℚ) : Room :=
  let pk := r.puck
  let pk : Puck := { pk with x := pk.x + pk.vx, y := pk.y + pk.vy }
  let pk : Puck := { pk with vx := pk.vx * PUCK_FRICTION, vy := pk.vy * PUCK_FRICTION }
  let pk : Puck :=
    if pk.y ≤ PUCK_RADIUS then { pk with y := PUCK_RADIUS, vy := |pk.vy| }
    else if TABLE_HEIGHT - PUCK_RADIUS ≤ pk.y then
      { pk with y := TABLE_HEIGHT - PUCK_RADIUS, vy := -|pk.vy| }
    else pk
  let leftP := r.left.map (fun p => handlePaddle p .left)
  let rightP := r.right.map (fun p => handlePaddle p .right)
  let pk : Puck := match leftP with
    | some pd => collideWithPaddle pk pd dl
    | none => pk
  let pk : Puck := match rightP with
    | some pd => collideWithPaddle pk pd dr
    | none => pk
  let r : Room := { r with left := leftP, right := rightP, puck := pk }
  if pk.x ≤ -PUCK_RADIUS then scoreGoal r .right c s
  else if TABLE_WIDTH + PUCK_RADIUS ≤ pk.x then scoreGoal r .left c s
  else r

/-- Room created by createRoom of part_001 lines 34-44, with the respawn
randomness passed as cosine and sine. -/
def createRoom (c s : ℚ) : Room :=
  { left := none
    right := none
    puck := spawnPuck c s none
    scoreL := 0
    scoreR := 0
    goalFlash := none }

/-- The join-room handler of part_001 lines 89-124, restricted to the slot
assignment on an existing room: reject when both slots are filled,
otherwise take the right side exactly when the left slot is occupied, and
place a fresh paddle at the start position of that side.  The result none
models the room-full emission, which leaves the room untouched. -/
def joinRoom (r : Room) : Option (Side × Room) :=
  if r.left.isSome ∧ r.right.isSome then none
  else
    let side : Side := if r.left.isSome then .right else .left
    let startX : ℚ := if side = .left then PADDLE_RADIUS * 2 else TABLE_WIDTH - PADDLE_RADIUS * 2
    let pd : Paddle := { x := startX, y := CENTER_Y, vx := 0, vy := 0 }
    match side with
    | .left => some (.left, { r with left := some pd })
    | .right => some (.right, { r with right := some pd })

/-- The disconnect handler of part_001 lines 146-163, restricted to one
room: delete the paddle slot of the departing side. -/
def leaveRoom (r : Room) (side : Side) : Room :=
  match side with
  | .left => { r with left := none }
  | .right => { r with right := none }

/-- Handler-layer paddle whose coordinates may be NaN, as stored by the
paddle-update handler of part_001. -/
structure JPaddle where
  x : JVal
  y : JVal
  vx : JVal
  vy : JVal
deriving DecidableEq

/-- Payload of a paddle-update message of part_001 line 126: four fields,
each possibly missing or non-numeric (undef), NaN, or a finite number. -/
structure JPayload where
  x : JVal
  y : JVal
  vx : JVal
  vy : JVal
deriving DecidableEq

/-- The paddle-update handler of part_001 lines 126-144, after the room and
side lookups: each field is written only when its typeof is number, the
positions are clamped to the legal range of the side, the velocities are
copied verbatim. -/
def paddleUpdate (side : Side) (pd : JPaddle) (pl : JPayload) : JPaddle :=
  let pd := if typeofNumber pl.x then
      { pd with x := clampJ pl.x (paddleMinX side) (paddleMaxX side) } else pd
  let pd := if typeofNumber pl.y then
      { pd with y := clampJ pl.y PADDLE_RADIUS (TABLE_HEIGHT - PADDLE_RADIUS) } else pd
  let pd := if typeofNumber pl.vx then { pd with vx := pl.vx } else pd
  if typeofNumber pl.vy then { pd with vy := pl.vy } else pd

/-- Multiplication of a handler-layer value by a rational constant: NaN
(and a non-number, which arithmetic coerces to NaN) propagates. -/
def jscale (v : JVal) (k : ℚ) : JVal :=
  match v with
  | .num q => .num (q * k)
  | _ => .nan

/-- Source function handlePaddle of part_001 lines 206-217 on handler-layer
values, the NaN-aware counterpart of handlePaddle below: the stored paddle
coordinates can be NaN (written by the paddle-update handler, see the NaN
lemmas), and the tick applies the same clamp and damping to them, with
Math.min and Math.max propagating NaN. -/
def handlePaddleJ (p : JPaddle) (side : Side) : JPaddle :=
  { x := clampJ p.x (paddleMinX side) (paddleMaxX side)
    y := clampJ p.y PADDLE_RADIUS (TABLE_HEIGHT - PADDLE_RADIUS)
    vx := jscale p.vx (9 / 10)
    vy := jscale p.vy (9 / 10) }

/-- Step one of the tick of part_001 (lines 176-177): integrate the puck
position by its velocity. -/
def advancePuck (pk : Puck) : Puck :=
  { pk with x := pk.x + pk.vx, y := pk.y + pk.vy }

/-- Step two of the tick of part_001 (lines 179-180): apply friction decay
to the puck velocity. -/
def frictionPuck (pk : Puck) : Puck :=
  { pk with vx := pk.vx * PUCK_FRICTION, vy := pk.vy * PUCK_FRICTION }

/-- Step three of the tick of part_001 (lines 182-188): reflect the puck
off the top and bottom walls. -/
def wallReflect (pk : Puck) : Puck :=
  if pk.y ≤ PUCK_RADIUS then { pk with y := PUCK_RADIUS, vy := |pk.vy| }
  else if TABLE_HEIGHT - PUCK_RADIUS ≤ pk.y then
    { pk with y := TABLE_HEIGHT - PUCK_RADIUS, vy := -|pk.vy| }
  else pk

/-- Step four of the tick of part_001 (lines 193-194): clamp and damp each
occupied paddle slot. -/
def clampPaddles (r : Room) : Room :=
  { r with
    left := r.left.map (fun p => handlePaddle p .left)
    right := r.right.map (fun p => handlePaddle p .right) }

/-- Step five of the tick of part_001 (lines 196-197): resolve the
collision with the left paddle and then with the right paddle, skipping
empty slots. -/
def collideBoth (pk : Puck) (l rp : Option Paddle) (dl dr : ℚ) : Puck :=
  let pk := match l with
    | some pd => collideWithPaddle pk pd dl
    | none => pk
  match rp with
  | some pd => collideWithPaddle pk pd dr
  | none => pk

/-- Step seven of the tick of part_001 (lines 199-203): detect a goal
crossing on either boundary and score it. -/
def detectGoalStep (r : Room) (c s : ℚ) : Room :=
  if r.puck.x ≤ -PUCK_RADIUS then scoreGoal r .right c s
  else if TABLE_WIDTH + PUCK_RADIUS ≤ r.puck.x then scoreGoal r .left c s
  else r

/-- Modelled from the spec: the per-tick order of section 4.4 of the spec,
built from the step functions above in the order integrate, friction, wall
reflection, paddle clamp, both collisions, goal detection.  Step six (the
speed cap) is conditional in the spec on the implementation enforcing one,
and this variant enforces none.  Compared against updateRoom below. -/
def specOrderTick (r : Room) (dl dr c s : ℚ) : Room :=
  let pk := wallReflect (frictionPuck (advancePuck r.puck))
  let r1 := clampPaddles r
  let pk := collideBoth pk r1.left r1.right dl dr
  detectGoalStep { r1 with puck := pk } c s

/-- Score counter of the given side. -/
def scoreFor (r : Room) : Side → ℕ
  | .left => r.scoreL
  | .right => r.scoreR

/-- The paddle invariant of the spec for one side: the position lies in the
half-plane of that side and within the vertical table bounds. -/
def inBoundsSide (side : Side) (pd : Paddle) : Prop :=
  paddleMinX side ≤ pd.x ∧ pd.x ≤ paddleMaxX side ∧
    PADDLE_RADIUS ≤ pd.y ∧ pd.y ≤ TABLE_HEIGHT - PADDLE_RADIUS

/-- The paddle invariant lifted to an optional slot; an empty slot
satisfies it vacuously. -/
def slotInBounds (side : Side) : Option Paddle → Prop
  | none => True
  | some pd => inBoundsSide side pd

end Server

namespace Client

/-- Table width of main.js line 13. -/
def GAME_WIDTH : ℚ := 800

/-- Table height of main.js line 14. -/
def GAME_HEIGHT : ℚ := 400

/-- Puck radius of main.js line 15. -/
def PUCK_RADIUS : ℚ := 15

/-- Paddle radius of main.js line 16. -/
def PADDLE_RADIUS : ℚ := 25

/-- Friction factor of main.js line 17 (0.99 as an exact rational). -/
def FRICTION : ℚ := 99 / 100

/-- Speed cap of main.js line 18. -/
def MAX_SPEED : ℚ := 8

/-- A scorer identity in the 800 by 400 variant, the strings player1 and
player2 in the source. -/
inductive Scorer where
  | player1 : Scorer
  | player2 : Scorer
deriving DecidableEq

/-- Client puck of main.js lines 36-42; the radius field always holds
PUCK_RADIUS and is kept as a constant. -/
structure CPuck where
  x : ℚ
  y : ℚ
  vx : ℚ
  vy : ℚ
deriving DecidableEq

/-- Client paddle of main.js lines 32-33 as used by the puck physics:
position only (the radius field always holds PADDLE_RADIUS). -/
structure CPaddle where
  x : ℚ
  y : ℚ
deriving DecidableEq

/-- Source function checkPaddleCollision of main.js lines 264-294.  The
argument dist stands for Math.sqrt of the squared center distance; the
source branches on the root being below the radius sum, expressed here on
the squared distance (the two agree under the root hypotheses).  Inside
the branch the source first repositions the puck using the cosine and sine
of Math.atan2(dy, dx): for a nonzero offset these are dx and dy divided by
the true distance, and for coincident centers atan2(0, 0) is zero, giving
cosine one and sine zero; it then computes the normal by dividing by the
distance, which at coincident centers is 0/0, NaN in JavaScript.  The only
use of that normal is the comparison relativeVelocity less than zero,
false for NaN; the rational convention 0/0 = 0 takes the same branch, so
the state produced agrees with the source. -/
def checkPaddleCollision (pk : CPuck) (pd : CPaddle) (dist : ℚ) : CPuck :=
  let dx := pk.x - pd.x
  let dy := pk.y - pd.y
  let distSq := dx * dx + dy * dy
  let combined := PUCK_RADIUS + PADDLE_RADIUS
  if distSq < combined * combined then
    let c := if distSq = 0 then 1 else dx / dist
    let s := if distSq = 0 then 0 else dy / dist
    let px := pd.x + c * combined
    let py := pd.y + s * combined
    let nx := dx / dist
    let ny := dy / dist
    let rel := pk.vx * nx + pk.vy * ny
    if rel < 0 then
      { x := px, y := py
        vx := (pk.vx - 2 * rel * nx) * (11 / 10)
        vy := (pk.vy - 2 * rel * ny) * (11 / 10) }
    else { pk with x := px, y := py }
  else pk

/-- Source function updatePuck of main.js lines 213-261, the per-frame puck
step run by the authoritative peer: integrate, apply friction, bounce off
the two horizontal walls, CHECK GOALS (returning early with the goal event
and an untouched puck when one fires), then resolve the collision with
each paddle and cap the speed.  The arguments d1 and d2 stand for the
Math.sqrt values of the two collision calls and spd for the Math.sqrt in
the speed cap; the cap branches on the squared speed (see the module
comment), and the returned option is the goal-scored emission. -/
def updatePuck (pk : CPuck) (myPd oppPd : CPaddle) (d1 d2 spd : ℚ) :
    CPuck × Option Scorer :=
  let pk : CPuck := { pk with x := pk.x + pk.vx, y := pk.y + pk.vy }
  let pk : CPuck := { pk with vx := pk.vx * FRICTION, vy := pk.vy * FRICTION }
  let pk : CPuck :=
    if pk.y - PUCK_RADIUS < 0 then { pk with y := PUCK_RADIUS, vy := pk.vy * (-1) } else pk
  let pk : CPuck :=
    if GAME_HEIGHT < pk.y + PUCK_RADIUS then
      { pk with y := GAME_HEIGHT - PUCK_RADIUS, vy := pk.vy * (-1) } else pk
  if pk.x - PUCK_RADIUS < 0 then (pk, some .player2)
  else if GAME_WIDTH < pk.x + PUCK_RADIUS then (pk, some .player1)
  else
    let pk := checkPaddleCollision pk myPd d1
    let pk := checkPaddleCollision pk oppPd d2
    let pk : CPuck :=
      if MAX_SPEED * MAX_SPEED < pk.vx * pk.vx + pk.vy * pk.vy then
        { pk with vx := pk.vx / spd * MAX_SPEED, vy := pk.vy / spd * MAX_SPEED }
      else pk
    (pk, none)

/-- Modelled from the spec: the per-tick order of section 4.4 applied to the
client puck, for comparison with updatePuck.  Steps one to three are the
same integrate, friction and wall operations; then the two collision
resolutions (step five), then the speed cap (step six), and only then goal
detection (step seven).  The paddle clamp of step four does not touch the
puck and is omitted; the same root arguments are passed. -/
def specOrderUpdatePuck (pk : CPuck) (myPd oppPd : CPaddle) (d1 d2 spd : ℚ) :
    CPuck × Option Scorer :=
  let pk : CPuck := { pk with x := pk.x + pk.vx, y := pk.y + pk.vy }
  let pk : CPuck := { pk with vx := pk.vx * FRICTION, vy := pk.vy * FRICTION }
  let pk : CPuck :=
    if pk.y - PUCK_RADIUS < 0 then { pk with y := PUCK_RADIUS, vy := pk.vy * (-1) } else pk
  let pk : CPuck :=
    if GAME_HEIGHT < pk.y + PUCK_RADIUS then
      { pk with y := GAME_HEIGHT - PUCK_RADIUS, vy := pk.vy * (-1) } else pk
  let pk := checkPaddleCollision pk myPd d1
  let pk := checkPaddleCollision pk oppPd d2
  let pk : CPuck :=
    if MAX_SPEED * MAX_SPEED < pk.vx * pk.vx + pk.vy * pk.vy then
      { pk with vx := pk.vx / spd * MAX_SPEED, vy := pk.vy / spd * MAX_SPEED }
    else pk
  if pk.x - PUCK_RADIUS < 0 then (pk, some .player2)
  else if GAME_WIDTH < pk.x + PUCK_RADIUS then (pk, some .player1)
  else (pk, none)

end Client

namespace ServerB

/-- Game state of part_002 (createGameState, lines 31-46) as touched by the
goal handler: the puck and the two scores.  The paddle positions live in a
separate handler-layer structure below. -/
structure BGameState where
  puck : Client.CPuck
  score1 : ℕ
  score2 : ℕ
deriving DecidableEq

/-- The goal-scored handler of part_002 lines 130-156, after the room
lookup: increment the counter named by the scorer and reset the puck to
center with components (random minus one half) times four, the two
Math.random() draws passed as r1 and r2. -/
def goalScored (gs : BGameState) (scorer : Client.Scorer) (r1 r2 : ℚ) : BGameState :=
  { puck := { x := 400, y := 200, vx := (r1 - 1 / 2) * 4, vy := (r2 - 1 / 2) * 4 }
    score1 := if scorer = .player1 then gs.score1 + 1 else gs.score1
    score2 := if scorer = .player2 then gs.score2 + 1 else gs.score2 }

/-- The join-room handler of part_002 lines 51-91, restricted to the player
list of one room (pairs of socket id and assigned player number): reject
when two players are present, otherwise push a new entry whose number is
one for an empty list and two otherwise.  The result none models the
room-full emission, which leaves the list untouched. -/
def joinRoom (players : List (ℕ × ℕ)) (sid : ℕ) : Option (List (ℕ × ℕ) × ℕ) :=
  if 2 ≤ players.length then none
  else
    let n : ℕ := if players.length = 0 then 1 else 2
    some (players ++ [(sid, n)], n)

/-- The disconnect handler of part_002 lines 158-177, restricted to the
player list: filter out the departing socket id. -/
def disconnect (players : List (ℕ × ℕ)) (sid : ℕ) : List (ℕ × ℕ) :=
  players.filter (fun p => p.1 ≠ sid)

/-- Handler-layer paddle of part_002 (players.player1 and players.player2
of createGameState): a position whose fields, after a paddle-move message,
hold whatever the client sent (the radius field is constant and dropped). -/
structure BPaddle where
  x : JVal
  y : JVal
deriving DecidableEq

/-- Payload of a paddle-move message of part_002 line 94: the fields data.x
and data.y, each possibly undefined, NaN or a number. -/
structure BMovePayload where
  x : JVal
  y : JVal
deriving DecidableEq

/-- The paddle-move handler of part_002 lines 94-114, after the room
lookup: the payload fields are written into the stored paddle verbatim,
with no numeric check and no clamping. -/
def paddleMove (pd : BPaddle) (d : BMovePayload) : BPaddle :=
  { pd with x := d.x, y := d.y }

/-- Boolean test that a stored paddle x coordinate is a number inside the
legal right half-plane of the 800 by 400 table, the range enforced by the
client clamp of main.js lines 192-195: from half width plus paddle radius
(425) to table width minus paddle radius (775). -/
def inRightHalfPlane (v : JVal) : Bool :=
  jvalInBounds v (Client.GAME_WIDTH / 2 + Client.PADDLE_RADIUS)
    (Client.GAME_WIDTH - Client.PADDLE_RADIUS)

end ServerB

/-! Theorems. -/

namespace Server

/-- Clamping with ordered bounds lands in the closed interval. -/
theorem clamp_mem (v lo hi : ℚ) (h : lo ≤ hi) :
    lo ≤ clamp v lo hi ∧ clamp v lo hi ≤ hi :=
  ⟨le_max_left _ _, max_le h (min_le_left _ _)⟩

/-- The lower x bound of each side is at most its upper x bound. -/
theorem paddleMinX_le_paddleMaxX (side : Side) :
    paddleMinX side ≤ paddleMaxX side := by
  cases side <;>
    norm_num [paddleMinX, paddleMaxX, PADDLE_RADIUS, CENTER_X, TABLE_WIDTH]

/-- The clamp pass of handlePaddle establishes the paddle invariant. -/
theorem handlePaddle_inBounds (pd : Paddle) (side : Side) :
    inBoundsSide side (handlePaddle pd side) := by
  obtain ⟨hx1, hx2⟩ := clamp_mem pd.x _ _ (paddleMinX_le_paddleMaxX side)
  obtain ⟨hy1, hy2⟩ := clamp_mem pd.y PADDLE_RADIUS (TABLE_HEIGHT - PADDLE_RADIUS)
    (by norm_num [PADDLE_RADIUS, TABLE_HEIGHT])
  exact ⟨hx1, hx2, hy1, hy2⟩

/-- The left slot after a tick is the clamped and damped left slot. -/
theorem updateRoom_left (r : Room) (dl dr c s : ℚ) :
    (updateRoom r dl dr c s).left = r.left.map (fun p => handlePaddle p .left) := by
  simp only [updateRoom, scoreGoal]
  split_ifs <;> rfl

/-- The right slot after a tick is the clamped and damped right slot. -/
theorem updateRoom_right (r : Room) (dl dr c s : ℚ) :
    (updateRoom r dl dr c s).right = r.right.map (fun p => handlePaddle p .right) := by
  simp only [updateRoom, scoreGoal]
  split_ifs <;> rfl

end Server

/-- Clamping a finite handler-layer number yields the finite rational
clamp. -/
theorem clampJ_num (q lo hi : ℚ) :
    clampJ (JVal.num q) lo hi = JVal.num (Server.clamp q lo hi) := rfl

/-- A finite number inside the interval passes the bounds test. -/
theorem jvalInBounds_of_mem (q lo hi : ℚ) (h1 : lo ≤ q) (h2 : q ≤ hi) :
    jvalInBounds (JVal.num q) lo hi = true := by
  simp [jvalInBounds, h1, h2]

/-- C1 (amended to the server-authoritative variant, with stored real
coordinates): after the paddle clamp step of every tick of part_001, each
occupied paddle slot whose stored coordinates are real numbers (not NaN)
lies within the half-plane of its side and within the vertical table
bounds, for every such room state and adversarially chosen finite input
payload; equivalently, at the NaN-aware handler layer the tick clamp sends
any finite stored coordinates into bounds.  (A stored NaN coordinate,
which the numeric check admits, survives the clamp and satisfies no bound
— see the counterexample — so the invariant is restored only for real
coordinates, and in the peer-authoritative variant not at all.) -/
theorem C1_paddle_clamp_bounds (r : Server.Room) (dl dr c s : ℚ)
    (side : Server.Side) (qx qy : ℚ) (vx vy : JVal) :
    Server.slotInBounds .left (Server.updateRoom r dl dr c s).left ∧
    Server.slotInBounds .right (Server.updateRoom r dl dr c s).right ∧
    jvalInBounds (Server.handlePaddleJ ⟨JVal.num qx, JVal.num qy, vx, vy⟩ side).x
      (Server.paddleMinX side) (Server.paddleMaxX side) = true ∧
    jvalInBounds (Server.handlePaddleJ ⟨JVal.num qx, JVal.num qy, vx, vy⟩ side).y
      Server.PADDLE_RADIUS (Server.TABLE_HEIGHT - Server.PADDLE_RADIUS) = true := by
  refine ⟨?_, ?_, ?_, ?_⟩
  · rw [Server.updateRoom_left]
    cases r.left with
    | none => trivial
    | some pd => exact Server.handlePaddle_inBounds pd .left
  · rw [Server.updateRoom_right]
    cases r.right with
    | none => trivial
    | some pd => exact Server.handlePaddle_inBounds pd .right
  · have hx : (Server.handlePaddleJ ⟨JVal.num qx, JVal.num qy, vx, vy⟩ side).x
        = JVal.num (Server.clamp qx (Server.paddleMinX side) (Server.paddleMaxX side)) := rfl
    rw [hx]
    obtain ⟨h1, h2⟩ := Server.clamp_mem qx _ _ (Server.paddleMinX_le_paddleMaxX side)
    exact jvalInBounds_of_mem _ _ _ h1 h2
  · have hy : (Server.handlePaddleJ ⟨JVal.num qx, JVal.num qy, vx, vy⟩ side).y
        = JVal.num (Server.clamp qy Server.PADDLE_RADIUS
            (Server.TABLE_HEIGHT - Server.PADDLE_RADIUS)) := rfl
    rw [hy]
    obtain ⟨h1, h2⟩ := Server.clamp_mem qy Server.PADDLE_RADIUS
      (Server.TABLE_HEIGHT - Server.PADDLE_RADIUS)
      (by norm_num [Server.PADDLE_RADIUS, Server.TABLE_HEIGHT])
    exact jvalInBounds_of_mem _ _ _ h1 h2

/-- C1 counterexample, both failure modes of the original claim.  Peer
variant: the paddle-move handler of part_002 stores the payload verbatim,
so a right-side paddle commanded to x = 1000 on the 800-wide table is
stored at 1000, outside its half-plane — no server-side clamp step exists
there.  Server variant: a payload whose x is NaN passes the typeof check
of the part_001 paddle-update handler and is stored, and the clamp of the
next tick propagates the NaN (Math.max(lo, Math.min(hi, NaN)) is NaN), so
after the clamp step the bound paddle lies in no half-plane. -/
theorem C1_counterexample :
    (ServerB.paddleMove ⟨JVal.num 775, JVal.num 200⟩ ⟨JVal.num 1000, JVal.num 200⟩).x
      = JVal.num 1000 ∧
    ServerB.inRightHalfPlane
      (ServerB.paddleMove ⟨JVal.num 775, JVal.num 200⟩ ⟨JVal.num 1000, JVal.num 200⟩).x
      = false ∧
    (Server.handlePaddleJ
        (Server.paddleUpdate .left ⟨JVal.num 80, JVal.num 270, JVal.num 0, JVal.num 0⟩
          ⟨JVal.nan, JVal.undef, JVal.undef, JVal.undef⟩) .left).x = JVal.nan ∧
    jvalInBounds
      (Server.handlePaddleJ
        (Server.paddleUpdate .left ⟨JVal.num 80, JVal.num 270, JVal.num 0, JVal.num 0⟩
          ⟨JVal.nan, JVal.undef, JVal.undef, JVal.undef⟩) .left).x
      (Server.paddleMinX .left) (Server.paddleMaxX .left) = false := by
  refine ⟨?_, ?_, ?_, ?_⟩
  · rfl
  · norm_num [ServerB.paddleMove, ServerB.inRightHalfPlane, jvalInBounds,
      Client.GAME_WIDTH, Client.PADDLE_RADIUS]
  · rfl
  · rfl

/-- C2 (amended to the server-authoritative variant): the tick of part_001
factors exactly as the spec order of section 4.4 — integrate, friction,
wall reflection, paddle clamp, both collision resolutions, then goal
detection, with no speed cap enforced. -/
theorem C2_server_tick_order (r : Server.Room) (dl dr c s : ℚ) :
    Server.updateRoom r dl dr c s = Server.specOrderTick r dl dr c s := rfl

/-- C2 counterexample: the client tick of main.js checks goals before
resolving collisions and returns early.  From the puck at (794, 218) with
velocity (5, 0), the right paddle at its legal position (775, 200)
overlapping the puck after integration (center distance 30, radius sum
40), the code emits the goal and leaves the puck at (799, 218), while the
spec order resolves the collision first and ends at (807, 224): the tick
does not execute goal detection after collision resolution. -/
theorem C2_counterexample :
    Client.updatePuck ⟨794, 218, 5, 0⟩ ⟨100, 200⟩ ⟨775, 200⟩ 0 30 (99 / 20)
      = (⟨799, 218, 99 / 20, 0⟩, some .player1) ∧
    Client.specOrderUpdatePuck ⟨794, 218, 5, 0⟩ ⟨100, 200⟩ ⟨775, 200⟩ 0 30 (99 / 20)
      = (⟨807, 224, 99 / 20, 0⟩, some .player1) ∧
    Client.updatePuck ⟨794, 218, 5, 0⟩ ⟨100, 200⟩ ⟨775, 200⟩ 0 30 (99 / 20)
      ≠ Client.specOrderUpdatePuck ⟨794, 218, 5, 0⟩ ⟨100, 200⟩ ⟨775, 200⟩ 0 30 (99 / 20) := by
  refine ⟨?_, ?_, ?_⟩ <;>
    norm_num [Client.updatePuck, Client.specOrderUpdatePuck, Client.checkPaddleCollision,
      Client.PUCK_RADIUS, Client.PADDLE_RADIUS, Client.FRICTION, Client.MAX_SPEED,
      Client.GAME_WIDTH, Client.GAME_HEIGHT]

/-- C3 (amended to the server-authoritative variant): the server collision
resolver of part_001 guards on a zero squared distance and returns the
puck unchanged at exactly coincident centers, so the normal is never
formed there and no division by zero occurs on that path. -/
theorem C3_server_zero_distance (pk : Server.Puck) (pd : Server.Paddle) (dist : ℚ)
    (h : (pk.x - pd.x) * (pk.x - pd.x) + (pk.y - pd.y) * (pk.y - pd.y) = 0) :
    Server.collideWithPaddle pk pd dist = pk := by
  simp only [Server.collideWithPaddle]
  rw [if_pos (Or.inr h)]

/-- C3 witness: a concrete coincident configuration on the server is left
unchanged. -/
theorem C3_witness :
    Server.collideWithPaddle ⟨5, 5, 1, 1⟩ ⟨5, 5, 0, 0⟩ 7 = ⟨5, 5, 1, 1⟩ :=
  C3_server_zero_distance ⟨5, 5, 1, 1⟩ ⟨5, 5, 0, 0⟩ 7 (by norm_num)

/-- C3 counterexample: the client collision resolver of main.js has no
zero-distance guard.  At exactly coincident centers (distance zero, below
the radius sum) it enters the collision branch, computes atan2(0,0) = 0,
and teleports the puck to the paddle center plus the radius sum along the
x axis — the puck state is changed, not returned unchanged, and in
JavaScript the normal 0/0 is NaN (here the velocity survives only because
the NaN comparison is false). -/
theorem C3_counterexample :
    Client.checkPaddleCollision ⟨100, 200, 2, 3⟩ ⟨100, 200⟩ 0 = ⟨140, 200, 2, 3⟩ ∧
    (⟨140, 200, 2, 3⟩ : Client.CPuck) ≠ ⟨100, 200, 2, 3⟩ := by
  constructor
  · norm_num [Client.checkPaddleCollision, Client.PUCK_RADIUS, Client.PADDLE_RADIUS]
  · intro h
    have := congrArg Client.CPuck.x h
    norm_num at this

namespace Server

/-- Explicit form of the x coordinate produced by an overlapping,
noncoincident server collision. -/
theorem collideWithPaddle_x (pk : Puck) (pd : Paddle) (dist : ℚ)
    (hlt : (pk.x - pd.x) * (pk.x - pd.x) + (pk.y - pd.y) * (pk.y - pd.y) <
      (PUCK_RADIUS + PADDLE_RADIUS) * (PUCK_RADIUS + PADDLE_RADIUS))
    (hne : (pk.x - pd.x) * (pk.x - pd.x) + (pk.y - pd.y) * (pk.y - pd.y) ≠ 0) :
    (collideWithPaddle pk pd dist).x
      = pk.x + (pk.x - pd.x) / dist * ((PUCK_RADIUS + PADDLE_RADIUS) - dist) := by
  simp only [collideWithPaddle]
  rw [if_neg (by push_neg; exact ⟨hlt, hne⟩)]

/-- Explicit form of the y coordinate produced by an overlapping,
noncoincident server collision. -/
theorem collideWithPaddle_y (pk : Puck) (pd : Paddle) (dist : ℚ)
    (hlt : (pk.x - pd.x) * (pk.x - pd.x) + (pk.y - pd.y) * (pk.y - pd.y) <
      (PUCK_RADIUS + PADDLE_RADIUS) * (PUCK_RADIUS + PADDLE_RADIUS))
    (hne : (pk.x - pd.x) * (pk.x - pd.x) + (pk.y - pd.y) * (pk.y - pd.y) ≠ 0) :
    (collideWithPaddle pk pd dist).y
      = pk.y + (pk.y - pd.y) / dist * ((PUCK_RADIUS + PADDLE_RADIUS) - dist) := by
  simp only [collideWithPaddle]
  rw [if_neg (by push_neg; exact ⟨hlt, hne⟩)]

end Server

namespace Client

/-- Explicit form of the x coordinate produced by an overlapping,
noncoincident client collision (both velocity branches reposition the puck
the same way). -/
theorem checkPaddleCollision_x (pk : CPuck) (pd : CPaddle) (dist : ℚ)
    (hlt : (pk.x - pd.x) * (pk.x - pd.x) + (pk.y - pd.y) * (pk.y - pd.y) <
      (PUCK_RADIUS + PADDLE_RADIUS) * (PUCK_RADIUS + PADDLE_RADIUS))
    (hne : (pk.x - pd.x) * (pk.x - pd.x) + (pk.y - pd.y) * (pk.y - pd.y) ≠ 0) :
    (checkPaddleCollision pk pd dist).x
      = pd.x + (pk.x - pd.x) / dist * (PUCK_RADIUS + PADDLE_RADIUS) := by
  simp only [checkPaddleCollision]
  rw [if_pos hlt, if_neg hne]
  split_ifs <;> simp [mul_comm]

/-- Explicit form of the y coordinate produced by an overlapping,
noncoincident client collision. -/
theorem checkPaddleCollision_y (pk : CPuck) (pd : CPaddle) (dist : ℚ)
    (hlt : (pk.x - pd.x) * (pk.x - pd.x) + (pk.y - pd.y) * (pk.y - pd.y) <
      (PUCK_RADIUS + PADDLE_RADIUS) * (PUCK_RADIUS + PADDLE_RADIUS))
    (hne : (pk.x - pd.x) * (pk.x - pd.x) + (pk.y - pd.y) * (pk.y - pd.y) ≠ 0) :
    (checkPaddleCollision pk pd dist).y
      = pd.y + (pk.y - pd.y) / dist * (PUCK_RADIUS + PADDLE_RADIUS) := by
  simp only [checkPaddleCollision]
  rw [if_pos hlt, if_neg hne]
  split_ifs <;> simp [mul_comm]

end Client

/-- C4: in both variants, whenever collision resolution detects an overlap
(squared center distance positive and below the square of the radius sum,
with dist the nonnegative real square root the code computes), the
post-collision squared center distance equals the square of the radius
sum, hence is at least it: the puck is pushed out along the contact normal
and never remains interpenetrating. -/
theorem C4_no_interpenetration :
    (∀ (pk : Server.Puck) (pd : Server.Paddle) (dist : ℚ),
      0 < dist →
      dist ^ 2 = (pk.x - pd.x) * (pk.x - pd.x) + (pk.y - pd.y) * (pk.y - pd.y) →
      (pk.x - pd.x) * (pk.x - pd.x) + (pk.y - pd.y) * (pk.y - pd.y) <
        (Server.PUCK_RADIUS + Server.PADDLE_RADIUS) *
          (Server.PUCK_RADIUS + Server.PADDLE_RADIUS) →
      ((Server.collideWithPaddle pk pd dist).x - pd.x) ^ 2 +
          ((Server.collideWithPaddle pk pd dist).y - pd.y) ^ 2 ≥
        (Server.PUCK_RADIUS + Server.PADDLE_RADIUS) ^ 2) ∧
    (∀ (pk : Client.CPuck) (pd : Client.CPaddle) (dist : ℚ),
      0 < dist →
      dist ^ 2 = (pk.x - pd.x) * (pk.x - pd.x) + (pk.y - pd.y) * (pk.y - pd.y) →
      (pk.x - pd.x) * (pk.x - pd.x) + (pk.y - pd.y) * (pk.y - pd.y) <
        (Client.PUCK_RADIUS + Client.PADDLE_RADIUS) *
          (Client.PUCK_RADIUS + Client.PADDLE_RADIUS) →
      ((Client.checkPaddleCollision pk pd dist).x - pd.x) ^ 2 +
          ((Client.checkPaddleCollision pk pd dist).y - pd.y) ^ 2 ≥
        (Client.PUCK_RADIUS + Client.PADDLE_RADIUS) ^ 2) := by
  constructor
  · intro pk pd dist h0 hsq hlt
    have hd : dist ≠ 0 := ne_of_gt h0
    have hne : (pk.x - pd.x) * (pk.x - pd.x) + (pk.y - pd.y) * (pk.y - pd.y) ≠ 0 := by
      rw [← hsq]; positivity
    rw [Server.collideWithPaddle_x pk pd dist hlt hne,
      Server.collideWithPaddle_y pk pd dist hlt hne]
    have key : (pk.x + (pk.x - pd.x) / dist * ((Server.PUCK_RADIUS + Server.PADDLE_RADIUS) - dist) - pd.x) ^ 2 +
        (pk.y + (pk.y - pd.y) / dist * ((Server.PUCK_RADIUS + Server.PADDLE_RADIUS) - dist) - pd.y) ^ 2 =
        (Server.PUCK_RADIUS + Server.PADDLE_RADIUS) ^ 2 := by
      field_simp
      ring_nf
      ring_nf at hsq
      nlinarith [hsq, sq_nonneg dist]
    rw [key]
  · intro pk pd dist h0 hsq hlt
    have hd : dist ≠ 0 := ne_of_gt h0
    have hne : (pk.x - pd.x) * (pk.x - pd.x) + (pk.y - pd.y) * (pk.y - pd.y) ≠ 0 := by
      rw [← hsq]; positivity
    rw [Client.checkPaddleCollision_x pk pd dist hlt hne,
      Client.checkPaddleCollision_y pk pd dist hlt hne]
    have key : (pd.x + (pk.x - pd.x) / dist * (Client.PUCK_RADIUS + Client.PADDLE_RADIUS) - pd.x) ^ 2 +
        (pd.y + (pk.y - pd.y) / dist * (Client.PUCK_RADIUS + Client.PADDLE_RADIUS) - pd.y) ^ 2 =
        (Client.PUCK_RADIUS + Client.PADDLE_RADIUS) ^ 2 := by
      field_simp
      ring_nf
      ring_nf at hsq
      nlinarith [hsq, sq_nonneg dist]
    rw [key]

/-- C4 witness: concrete overlapping collisions in each variant end with
squared center distance equal to the squared radius sum. -/
theorem C4_witness :
    ((Server.collideWithPaddle ⟨8, 6, 0, 0⟩ ⟨5, 2, 0, 0⟩ 5).x - 5) ^ 2 +
        ((Server.collideWithPaddle ⟨8, 6, 0, 0⟩ ⟨5, 2, 0, 0⟩ 5).y - 2) ^ 2 ≥
      (Server.PUCK_RADIUS + Server.PADDLE_RADIUS) ^ 2 ∧
    ((Client.checkPaddleCollision ⟨799, 218, 5, 0⟩ ⟨775, 200⟩ 30).x - 775) ^ 2 +
        ((Client.checkPaddleCollision ⟨799, 218, 5, 0⟩ ⟨775, 200⟩ 30).y - 200) ^ 2 ≥
      (Client.PUCK_RADIUS + Client.PADDLE_RADIUS) ^ 2 :=
  ⟨C4_no_interpenetration.1 ⟨8, 6, 0, 0⟩ ⟨5, 2, 0, 0⟩ 5 (by norm_num) (by norm_num)
      (by norm_num [Server.PUCK_RADIUS, Server.PADDLE_RADIUS]),
   C4_no_interpenetration.2 ⟨799, 218, 5, 0⟩ ⟨775, 200⟩ 30 (by norm_num) (by norm_num)
      (by norm_num [Client.PUCK_RADIUS, Client.PADDLE_RADIUS])⟩

/-- C5 (the code on the failing input): side assignment round-trip in both
variants.  In part_001 the first joiner gets left, the second right, a
third is rejected, and after the left player departs a new joiner gets the
unoccupied left side.  In part_002 (player numbers standing for sides) the
first joiner gets 1, the second 2, a third is rejected; but after player 1
departs, a new joiner into the one-occupant room is assigned number 2 even
though the remaining occupant already holds number 2 — the code assigns a
side already held, contradicting the claim and the evident intent. -/
theorem C5_join_assignments :
    Server.joinRoom
        { left := none, right := none, puck := ⟨480, 270, 0, 0⟩,
          scoreL := 0, scoreR := 0, goalFlash := none }
      = some (.left,
        { left := some ⟨80, 270, 0, 0⟩, right := none, puck := ⟨480, 270, 0, 0⟩,
          scoreL := 0, scoreR := 0, goalFlash := none }) ∧
    Server.joinRoom
        { left := some ⟨80, 270, 0, 0⟩, right := none, puck := ⟨480, 270, 0, 0⟩,
          scoreL := 0, scoreR := 0, goalFlash := none }
      = some (.right,
        { left := some ⟨80, 270, 0, 0⟩, right := some ⟨880, 270, 0, 0⟩,
          puck := ⟨480, 270, 0, 0⟩, scoreL := 0, scoreR := 0, goalFlash := none }) ∧
    Server.joinRoom
        { left := some ⟨80, 270, 0, 0⟩, right := some ⟨880, 270, 0, 0⟩,
          puck := ⟨480, 270, 0, 0⟩, scoreL := 0, scoreR := 0, goalFlash := none }
      = none ∧
    Server.joinRoom
        (Server.leaveRoom
          { left := some ⟨80, 270, 0, 0⟩, right := some ⟨880, 270, 0, 0⟩,
            puck := ⟨480, 270, 0, 0⟩, scoreL := 0, scoreR := 0, goalFlash := none } .left)
      = some (.left,
        { left := some ⟨80, 270, 0, 0⟩, right := some ⟨880, 270, 0, 0⟩,
          puck := ⟨480, 270, 0, 0⟩, scoreL := 0, scoreR := 0, goalFlash := none }) ∧
    ServerB.joinRoom [] 0 = some ([(0, 1)], 1) ∧
    ServerB.joinRoom [(0, 1)] 1 = some ([(0, 1), (1, 2)], 2) ∧
    ServerB.joinRoom [(0, 1), (1, 2)] 2 = none ∧
    ServerB.disconnect [(0, 1), (1, 2)] 0 = [(1, 2)] ∧
    ServerB.joinRoom [(1, 2)] 2 = some ([(1, 2), (2, 2)], 2) := by
  refine ⟨?_, ?_, ?_, ?_, ?_, ?_, ?_, ?_, ?_⟩ <;>
    norm_num [Server.joinRoom, Server.leaveRoom, ServerB.joinRoom, ServerB.disconnect,
      Server.PADDLE_RADIUS, Server.TABLE_WIDTH, Server.CENTER_Y, Server.TABLE_HEIGHT] <;>
    try decide

/-- C6 (amended): in the 800 by 400 variant, the puck at (795, 200) with
velocity (5, 0) and radius 15 crosses the right boundary on the next
client step (795 + 5 + 15 = 815 beyond 800) and the goal event names
player1; the goal-scored handler then increments score.player1 by exactly
one, leaves score.player2 unchanged, and resets the puck to (400, 200)
with velocity components four times (random minus one half), each lying in
the interval from minus two up to but excluding two — a velocity that is
randomized but NOT guaranteed nonzero. -/
theorem C6_goal_scenario (p1 p2 : Client.CPaddle) (d1 d2 spd : ℚ)
    (gs : ServerB.BGameState) (r1 r2 : ℚ)
    (h1 : 0 ≤ r1) (h2 : r1 < 1) (h3 : 0 ≤ r2) (h4 : r2 < 1) :
    Client.updatePuck ⟨795, 200, 5, 0⟩ p1 p2 d1 d2 spd
      = (⟨800, 200, 99 / 20, 0⟩, some .player1) ∧
    (ServerB.goalScored gs .player1 r1 r2).score1 = gs.score1 + 1 ∧
    (ServerB.goalScored gs .player1 r1 r2).score2 = gs.score2 ∧
    (ServerB.goalScored gs .player1 r1 r2).puck.x = 400 ∧
    (ServerB.goalScored gs .player1 r1 r2).puck.y = 200 ∧
    -2 ≤ (ServerB.goalScored gs .player1 r1 r2).puck.vx ∧
    (ServerB.goalScored gs .player1 r1 r2).puck.vx < 2 ∧
    -2 ≤ (ServerB.goalScored gs .player1 r1 r2).puck.vy ∧
    (ServerB.goalScored gs .player1 r1 r2).puck.vy < 2 := by
  refine ⟨?_, ?_, ?_, ?_, ?_, ?_, ?_, ?_, ?_⟩ <;>
    norm_num [Client.updatePuck, ServerB.goalScored, Client.PUCK_RADIUS,
      Client.GAME_WIDTH, Client.GAME_HEIGHT, Client.FRICTION] <;>
    first
    | decide
    | linarith

/-- C6 witness: the scenario at the concrete random draws one quarter and
three quarters credits player1 with exactly one point. -/
theorem C6_witness :
    (ServerB.goalScored ⟨⟨400, 200, 0, 0⟩, 0, 0⟩ .player1 (1 / 4) (3 / 4)).score1 = 0 + 1 :=
  (C6_goal_scenario ⟨100, 200⟩ ⟨700, 200⟩ 0 0 0 ⟨⟨400, 200, 0, 0⟩, 0, 0⟩ (1 / 4) (3 / 4)
    (by norm_num) (by norm_num) (by norm_num) (by norm_num)).2.1

/-- C6 counterexample: when both Math.random() draws return exactly one
half (a value Math.random can produce), the respawned velocity is the zero
vector, refuting the asserted nonzero freshly randomized velocity. -/
theorem C6_counterexample :
    (ServerB.goalScored ⟨⟨400, 200, 0, 0⟩, 0, 0⟩ .player1 (1 / 2) (1 / 2)).puck.vx = 0 ∧
    (ServerB.goalScored ⟨⟨400, 200, 0, 0⟩, 0, 0⟩ .player1 (1 / 2) (1 / 2)).puck.vy = 0 := by
  norm_num [ServerB.goalScored]

/-- C7 (amended to the server-authoritative variant): over a tick of
part_001 both score counters are non-decreasing and their sum grows by at
most one (at most one goal per tick, no reset); scoreGoal increments
exactly the counter of the scoring side by exactly one, leaves the other
unchanged, and respawns the puck at table center in the same tick, a
position strictly inside both goal-detection boundaries, so a single
crossing cannot be detected again on the next tick. -/
theorem C7_server_goal_idempotent (r : Server.Room) (dl dr c s : ℚ)
    (scorer : Server.Side) :
    r.scoreL ≤ (Server.updateRoom r dl dr c s).scoreL ∧
    r.scoreR ≤ (Server.updateRoom r dl dr c s).scoreR ∧
    (Server.updateRoom r dl dr c s).scoreL + (Server.updateRoom r dl dr c s).scoreR
      ≤ r.scoreL + r.scoreR + 1 ∧
    Server.scoreFor (Server.scoreGoal r scorer c s) scorer = Server.scoreFor r scorer + 1 ∧
    Server.scoreFor (Server.scoreGoal r scorer c s) scorer.other
      = Server.scoreFor r scorer.other ∧
    (Server.scoreGoal r scorer c s).puck.x = Server.CENTER_X ∧
    (Server.scoreGoal r scorer c s).puck.y = Server.CENTER_Y ∧
    -Server.PUCK_RADIUS < (Server.scoreGoal r scorer c s).puck.x ∧
    (Server.scoreGoal r scorer c s).puck.x < Server.TABLE_WIDTH + Server.PUCK_RADIUS := by
  refine ⟨?_, ?_, ?_, ?_, ?_, ?_, ?_, ?_, ?_⟩
  · simp only [Server.updateRoom, Server.scoreGoal]
    split_ifs <;> simp_all <;> try omega
  · simp only [Server.updateRoom, Server.scoreGoal]
    split_ifs <;> simp_all <;> try omega
  · simp only [Server.updateRoom, Server.scoreGoal]
    split_ifs <;> simp_all <;> try omega
  · cases scorer <;> simp [Server.scoreGoal, Server.scoreFor]
  · cases scorer <;> simp [Server.scoreGoal, Server.scoreFor, Server.Side.other]
  · norm_num [Server.scoreGoal, Server.spawnPuck, Server.CENTER_X, Server.TABLE_WIDTH]
  · norm_num [Server.scoreGoal, Server.spawnPuck, Server.CENTER_Y, Server.TABLE_HEIGHT]
  · norm_num [Server.scoreGoal, Server.spawnPuck, Server.PUCK_RADIUS, Server.CENTER_X,
      Server.TABLE_WIDTH]
  · norm_num [Server.scoreGoal, Server.spawnPuck, Server.PUCK_RADIUS, Server.CENTER_X,
      Server.TABLE_WIDTH]

/-- C7 counterexample: in the peer-authoritative variant a single crossing
is detected on two consecutive client frames — the client emits the goal
event but does not move the puck back inside (it waits for the server
round-trip), so the next frame, with the puck still past the boundary,
emits a second goal event for the same crossing, and replaying both events
through the goal-scored handler of part_002 increments score.player1 by
two for one crossing. -/
theorem C7_counterexample :
    Client.updatePuck ⟨795, 200, 5, 0⟩ ⟨100, 200⟩ ⟨700, 200⟩ 0 0 0
      = (⟨800, 200, 99 / 20, 0⟩, some .player1) ∧
    Client.updatePuck ⟨800, 200, 99 / 20, 0⟩ ⟨100, 200⟩ ⟨700, 200⟩ 0 0 0
      = (⟨16099 / 20, 200, 9801 / 2000, 0⟩, some .player1) ∧
    (ServerB.goalScored (ServerB.goalScored ⟨⟨400, 200, 0, 0⟩, 0, 0⟩ .player1 0 0)
        .player1 0 0).score1 = 2 := by
  refine ⟨?_, ?_, ?_⟩ <;>
    norm_num [Client.updatePuck, ServerB.goalScored, Client.PUCK_RADIUS,
      Client.GAME_WIDTH, Client.GAME_HEIGHT, Client.FRICTION]

/-- C8 (amended to the server-authoritative variant, finite fields): for
each of the four payload fields of the paddle-update handler of part_001,
a non-numeric or missing field is dropped and the corresponding stored
field keeps its prior value; a finite numeric x or y is clamped into the
legal range of the side, respectively into the vertical table bounds,
before being written, so the written value lies between the bounds; a
finite numeric vx or vy is copied verbatim; and the handler is a total
function of the payload.  (NaN, which typeof classifies as numeric, is
written as NaN unclamped — the NaN theorems cover it; the peer-variant
handler validates and clamps nothing — see the counterexample.) -/
theorem C8_server_input_validation (side : Server.Side) (pd : Server.JPaddle)
    (x y vx vy : JVal) (q qy qvx qvy : ℚ) :
    (Server.paddleUpdate side pd ⟨JVal.undef, y, vx, vy⟩).x = pd.x ∧
    (Server.paddleUpdate side pd ⟨JVal.num q, y, vx, vy⟩).x
      = JVal.num (Server.clamp q (Server.paddleMinX side) (Server.paddleMaxX side)) ∧
    Server.paddleMinX side ≤ Server.clamp q (Server.paddleMinX side) (Server.paddleMaxX side) ∧
    Server.clamp q (Server.paddleMinX side) (Server.paddleMaxX side) ≤ Server.paddleMaxX side ∧
    (Server.paddleUpdate side pd ⟨x, JVal.undef, vx, vy⟩).y = pd.y ∧
    (Server.paddleUpdate side pd ⟨x, JVal.num qy, vx, vy⟩).y
      = JVal.num (Server.clamp qy Server.PADDLE_RADIUS
          (Server.TABLE_HEIGHT - Server.PADDLE_RADIUS)) ∧
    Server.PADDLE_RADIUS ≤ Server.clamp qy Server.PADDLE_RADIUS
      (Server.TABLE_HEIGHT - Server.PADDLE_RADIUS) ∧
    Server.clamp qy Server.PADDLE_RADIUS (Server.TABLE_HEIGHT - Server.PADDLE_RADIUS)
      ≤ Server.TABLE_HEIGHT - Server.PADDLE_RADIUS ∧
    (Server.paddleUpdate side pd ⟨x, y, JVal.undef, vy⟩).vx = pd.vx ∧
    (Server.paddleUpdate side pd ⟨x, y, JVal.num qvx, vy⟩).vx = JVal.num qvx ∧
    (Server.paddleUpdate side pd ⟨x, y, vx, JVal.undef⟩).vy = pd.vy ∧
    (Server.paddleUpdate side pd ⟨x, y, vx, JVal.num qvy⟩).vy = JVal.num qvy := by
  have hyb : Server.PADDLE_RADIUS ≤ Server.TABLE_HEIGHT - Server.PADDLE_RADIUS := by
    norm_num [Server.PADDLE_RADIUS, Server.TABLE_HEIGHT]
  refine ⟨?_, ?_, ?_, ?_, ?_, ?_, ?_, ?_, ?_, ?_, ?_, ?_⟩
  · simp only [Server.paddleUpdate]
    split_ifs <;> simp_all [typeofNumber]
  · simp only [Server.paddleUpdate]
    split_ifs <;> simp_all [typeofNumber, clampJ, jmin, jmax, Server.clamp, min_comm]
  · exact (Server.clamp_mem q _ _ (Server.paddleMinX_le_paddleMaxX side)).1
  · exact (Server.clamp_mem q _ _ (Server.paddleMinX_le_paddleMaxX side)).2
  · simp only [Server.paddleUpdate]
    split_ifs <;> simp_all [typeofNumber]
  · simp only [Server.paddleUpdate]
    split_ifs <;> simp_all [typeofNumber, clampJ, jmin, jmax, Server.clamp, min_comm]
  · exact (Server.clamp_mem qy _ _ hyb).1
  · exact (Server.clamp_mem qy _ _ hyb).2
  · simp only [Server.paddleUpdate]
    split_ifs <;> simp_all [typeofNumber]
  · simp only [Server.paddleUpdate]
    split_ifs <;> simp_all [typeofNumber]
  · simp only [Server.paddleUpdate]
    split_ifs <;> simp_all [typeofNumber]
  · simp only [Server.paddleUpdate]
    split_ifs <;> simp_all [typeofNumber]

/-- C8 counterexample: the paddle-move handler of part_002 writes payload
fields verbatim.  A missing x field overwrites the stored x with
undefined (the prior value 100 is not kept), and a numeric y of 2000 is
written without clamping, far outside the vertical table bound 375. -/
theorem C8_counterexample :
    ServerB.paddleMove ⟨JVal.num 100, JVal.num 200⟩ ⟨JVal.undef, JVal.num 2000⟩
      = ⟨JVal.undef, JVal.num 2000⟩ ∧
    jvalInBounds (ServerB.paddleMove ⟨JVal.num 100, JVal.num 200⟩
        ⟨JVal.undef, JVal.num 2000⟩).y Client.PADDLE_RADIUS
        (Client.GAME_HEIGHT - Client.PADDLE_RADIUS) = false := by
  constructor
  · rfl
  · norm_num [ServerB.paddleMove, jvalInBounds, Client.PADDLE_RADIUS, Client.GAME_HEIGHT]

/-- C9: every puck produced by spawnPuck of part_001 sits exactly at the
table center (480, 270) and its velocity, for any respawn angle (cosine c,
sine s) and any lastScorer, has squared magnitude exactly the square of
PUCK_START_SPEED = 6.5 — the direction factor is plus or minus one and the
absolute value and sine contributions recombine by the Pythagorean
identity — and in particular is never the zero vector. -/
theorem C9_spawn_puck (c s : ℚ) (last : Option Server.Side) (h : c ^ 2 + s ^ 2 = 1) :
    (Server.spawnPuck c s last).x = 480 ∧
    (Server.spawnPuck c s last).y = 270 ∧
    (Server.spawnPuck c s last).vx ^ 2 + (Server.spawnPuck c s last).vy ^ 2
      = Server.PUCK_START_SPEED ^ 2 ∧
    ¬((Server.spawnPuck c s last).vx = 0 ∧ (Server.spawnPuck c s last).vy = 0) := by
  have hx : (Server.spawnPuck c s last).x = 480 := by
    norm_num [Server.spawnPuck, Server.CENTER_X, Server.TABLE_WIDTH]
  have hy : (Server.spawnPuck c s last).y = 270 := by
    norm_num [Server.spawnPuck, Server.CENTER_Y, Server.TABLE_HEIGHT]
  have habs : |c| ^ 2 = c ^ 2 := sq_abs c
  have hm : (Server.spawnPuck c s last).vx ^ 2 + (Server.spawnPuck c s last).vy ^ 2
      = Server.PUCK_START_SPEED ^ 2 := by
    rcases last with _ | side
    · simp only [Server.spawnPuck, Server.jsign]
      split_ifs <;> first
      | nlinarith [habs, h]
      | simp_all
    · rcases side <;>
        · simp only [Server.spawnPuck]
          nlinarith [habs, h]
  refine ⟨hx, hy, hm, ?_⟩
  rintro ⟨h1, h2⟩
  rw [h1, h2] at hm
  norm_num [Server.PUCK_START_SPEED] at hm

/-- C9 witness: the spawn at angle zero (cosine one, sine zero) with no
last scorer sits at center with squared speed exactly 6.5 squared. -/
theorem C9_witness :
    (1 : ℚ) ^ 2 + (0 : ℚ) ^ 2 = 1 ∧
    ((Server.spawnPuck 1 0 none).x = 480 ∧
      (Server.spawnPuck 1 0 none).vx ^ 2 + (Server.spawnPuck 1 0 none).vy ^ 2
        = Server.PUCK_START_SPEED ^ 2) :=
  ⟨by norm_num,
    (C9_spawn_puck 1 0 none (by norm_num)).1,
    (C9_spawn_puck 1 0 none (by norm_num)).2.2.1⟩

/-- C10: a paddle-update payload of part_001 whose x field is NaN passes
the typeof number check, clamp propagates NaN through Math.min and
Math.max, and the handler therefore writes NaN into the stored x
coordinate — a value inside no bounds interval whatsoever. -/
theorem C10_nan_bypass (pd : Server.JPaddle) (y vx vy : JVal) (lo hi : ℚ) :
    typeofNumber JVal.nan = true ∧
    clampJ JVal.nan lo hi = JVal.nan ∧
    (Server.paddleUpdate .left pd ⟨JVal.nan, y, vx, vy⟩).x = JVal.nan ∧
    jvalInBounds (Server.paddleUpdate .left pd ⟨JVal.nan, y, vx, vy⟩).x lo hi = false := by
  have hx : (Server.paddleUpdate .left pd ⟨JVal.nan, y, vx, vy⟩).x = JVal.nan := by
    simp only [Server.paddleUpdate]
    split_ifs <;> simp_all [typeofNumber, clampJ, jmin, jmax]
  refine ⟨rfl, rfl, hx, ?_⟩
  rw [hx]
  rfl

end AirHockey
